import Mathlib

/-!
Shallow embedding of the STC port proxy module (stc_port.py): the port
reservation flow, link-state polling, online check, name cosmetics, the
children override for emulated devices, the generator attribute forwarding
and the LAG member management.  Remote collaborators (the session transport,
the host-locality predicate and the link-status feed) are modelled as an
explicit environment; remote side effects are recorded as action traces.
-/

/-- Failure modes of the Python methods, modelled structurally: a dereference
of the unset activephy (Python AttributeError on None), an unbound local
variable (Python NameError / UnboundLocalError), and the TgnError raised by
wait_for_states, carrying the requested states, the last observed state and
the timeout. -/
inductive PyError where
  | noneAttributeError
  | nameError (var : String)
  | tgnError (states : List String) (lastState : String) (timeout : Nat)
deriving DecidableEq, Repr

/-- The remote environment seen by a port: the external host-locality
predicate, the remote Location attribute, the remote activephy-Targets
reference, and the LinkStatus value returned by the i-th read of the
LinkStatus attribute. -/
structure Env where
  isLocalHost : String → Bool
  remoteLocation : String
  activephyTargets : String
  linkStatus : Nat → String

deriving instance DecidableEq for Except

/-- Python str.lower modelled at character level (the link states and child
type names involved are plain ASCII). -/
def pyLower (s : String) : String :=
  String.mk (s.data.map Char.toLower)

/-- Local state of an StcPort proxy: its remote reference, the stored
location and the bound activephy reference.  Both location and activephy
start as none in the constructor. -/
structure StcPort where
  ref : String
  location : Option String
  activephy : Option String
deriving DecidableEq, Repr

/-- Remote side effects performed by reserve and wait_for_states, in order. -/
inductive RemoteAction where
  | setAttributes (attrs : List (String × String))
  | getAttribute (name : String)
  | performAttachPorts (portList : String) (autoConnect : Bool) (revokeOwner : Bool)
  | applyCall
  | getAttributesEager (phyRef : String)
  | pollLinkStatus (i : Nat)
deriving DecidableEq, Repr

/-- The loop of wait_for_states: for each of the remaining fuel iterations it
dereferences the activephy (failing on None), reads LinkStatus (the i-th
read), returns the number of polls performed on the first value that is a
member of states, and otherwise sleeps one second and retries.  When the
fuel is exhausted the raise path inspects the last assigned link_state:
never assigned means a Python unbound-variable error, otherwise the TgnError
with the requested states, the last observed state and the timeout. -/
def waitLoop (phy : Option String) (env : Env) (states : List String) (timeout : Nat) :
    Nat → Nat → Option String → Except PyError Nat
  | 0, _, lastState =>
      match lastState with
      | none => Except.error (PyError.nameError "link_state")
      | some s => Except.error (PyError.tgnError states s timeout)
  | fuel + 1, i, _ =>
      match phy with
      | none => Except.error PyError.noneAttributeError
      | some _ =>
          let linkState := env.linkStatus i
          if linkState ∈ states then Except.ok (i + 1)
          else waitLoop phy env states timeout fuel (i + 1) (some linkState)

/-- StcPort.wait_for_states: polls LinkStatus of the bound activephy once per
second, up to timeout attempts.  The ok value is the number of polls
performed before returning. -/
def StcPort.wait_for_states (port : StcPort) (env : Env) (timeout : Nat)
    (states : List String) : Except PyError Nat :=
  waitLoop port.activephy env states timeout timeout 0 none

/-- StcPort.is_online: dereferences the bound activephy (failing on None) and
compares the lowercased LinkStatus value with "up".  The read is the first
read of the environment feed. -/
def StcPort.is_online (port : StcPort) (env : Env) : Except PyError Bool :=
  match port.activephy with
  | none => Except.error PyError.noneAttributeError
  | some _ => Except.ok (pyLower (env.linkStatus 0) == "up")

/-- First phase of reserve: when a truthy (non-empty) location argument is
given it is stored locally and written remotely via set_attributes,
otherwise the remote Location attribute is read and adopted. -/
def reserveStep1 (port : StcPort) (env : Env) (location : Option String) :
    StcPort × List RemoteAction :=
  match location with
  | some loc =>
      if loc = "" then
        ({ port with location := some env.remoteLocation }, [RemoteAction.getAttribute "Location"])
      else
        ({ port with location := some loc }, [RemoteAction.setAttributes [("location", loc)]])
  | none =>
      ({ port with location := some env.remoteLocation }, [RemoteAction.getAttribute "Location"])

/-- The remote calls of the non-local branch of reserve: the AttachPorts
request with AutoConnect true and RevokeOwner bound to force, the apply, the
read of activephy-Targets and the eager get_attributes on the new activephy
object. -/
def attachTrace (portRef : String) (force : Bool) (phyRef : String) : List RemoteAction :=
  [RemoteAction.performAttachPorts portRef true force, RemoteAction.applyCall,
   RemoteAction.getAttribute "activephy-Targets", RemoteAction.getAttributesEager phyRef]

/-- StcPort.reserve: resolves the location (write the argument or adopt the
remote value), and when the resolved location is not local, attaches with
auto connect and the force flag as RevokeOwner, applies, binds activephy to
the activephy-Targets reference, eagerly loads its attributes, and when
wait_for_up is set runs wait_for_states with the given timeout and the
single state "UP", appending one poll action per poll performed. -/
def StcPort.reserve (port : StcPort) (env : Env) (location : Option String)
    (force wait_for_up : Bool) (timeout : Nat) :
    Except PyError (StcPort × List RemoteAction) :=
  let port1 := (reserveStep1 port env location).1
  let trace1 := (reserveStep1 port env location).2
  if env.isLocalHost (port1.location.getD "") then
    Except.ok (port1, trace1)
  else
    let port2 := { port1 with activephy := some env.activephyTargets }
    let trace2 := trace1 ++ attachTrace port.ref force env.activephyTargets
    if wait_for_up then
      match StcPort.wait_for_states port2 env timeout ["UP"] with
      | Except.ok k =>
          Except.ok (port2, trace2 ++ (List.range k).map RemoteAction.pollLinkStatus)
      | Except.error e => Except.error e
    else
      Except.ok (port2, trace2)

/-- The port with the given location written and the activephy bound, as
produced by the non-local branch of reserve. -/
def boundPort (port : StcPort) (loc : String) (phyRef : String) : StcPort :=
  { port with location := some loc, activephy := some phyRef }

/-- A trace containing no attach request, no apply and no link-state poll. -/
def noReservationEffects (tr : List RemoteAction) : Prop :=
  ∀ a ∈ tr, (∀ pl ac rv, a ≠ RemoteAction.performAttachPorts pl ac rv) ∧
    a ≠ RemoteAction.applyCall ∧ (∀ i, a ≠ RemoteAction.pollLinkStatus i)

/-- The character sequence of the cosmetic suffix appended by STC to port
names with no live physical binding. -/
def offlineSuffix : List Char := " (offline)".data

/-- The regex substitution of StcPort.get_name at character level: the
pattern is anchored at the end of the name, so exactly one trailing
occurrence of the suffix is removed when present and the name is otherwise
unchanged. -/
def stripOfflineTag (cs : List Char) : List Char :=
  if offlineSuffix.isSuffixOf cs then cs.take (cs.length - offlineSuffix.length) else cs

/-- StcPort.get_name: returns the remote Name attribute with the trailing
offline tag removed. -/
def StcPort.get_name (remoteName : String) : String :=
  String.mk (stripOfflineTag remoteName.data)

/-- Remote side effects performed by StcLag.add_ports, in order. -/
inductive LagAction where
  | appendMember (ref : String)
  | createLacpPortConfig (portRef : String)
  | applyCall
deriving DecidableEq, Repr

/-- Local state of an StcLag proxy: the accumulated values of the
PortSetMember-targets attribute. -/
structure StcLag where
  portSetMembers : List String
deriving DecidableEq, Repr

/-- The per-port loop of add_ports.  Modelled from the spec: the base method
append_attribute (not part of the shown slice) appends a value to an
accumulating list-valued remote attribute, never overwriting its previous
entries; each port additionally gains a fresh LacpPortConfig child, recorded
here as a trace action. -/
def addPortsLoop : StcLag → List String → StcLag × List LagAction
  | lag, [] => (lag, [])
  | lag, p :: rest =>
      let next := addPortsLoop { portSetMembers := lag.portSetMembers ++ [p] } rest
      (next.1, LagAction.appendMember p :: LagAction.createLacpPortConfig p :: next.2)

/-- StcLag.add_ports: appends each given port reference to the member list
and creates one LacpPortConfig child under each given port, then applies
once after the whole batch. -/
def StcLag.add_ports (lag : StcLag) (ports : List String) : StcLag × List LagAction :=
  ((addPortsLoop lag ports).1, (addPortsLoop lag ports).2 ++ [LagAction.applyCall])

/-- The value yielded by an appendMember action, used to project the member
appends out of a trace. -/
def memberAppended : LagAction → Option String
  | LagAction.appendMember r => some r
  | _ => none

/-- A project-level emulated device: its remote reference and the reference
of the port that logically owns it. -/
structure Device where
  ref : String
  owner : String
deriving DecidableEq, Repr

/-- Shared project-level state for the emulated-device reconciliation: the
cached device index and the number of project-level enumerations performed
so far. -/
structure ProjectState where
  deviceIndex : List Device
  enumCount : Nat
deriving DecidableEq, Repr

/-- Modelled from the spec: project.get_objects_by_type for emulated devices
returns the shared cached index without any remote access. -/
def project_get_objects_by_type (proj : ProjectState) : List Device :=
  proj.deviceIndex

/-- Modelled from the spec: project.get_children for emulated devices
enumerates the remote project-level devices and caches them in the shared
index; the enumeration counter records this side effect. -/
def project_get_children_ed (remoteDevices : List Device) (proj : ProjectState) : ProjectState :=
  { deviceIndex := remoteDevices, enumCount := proj.enumCount + 1 }

/-- Modelled from the spec: port.get_objects_by_type for emulated devices
filters the shared project index down to the devices owned by this port. -/
def port_get_objects_by_type (proj : ProjectState) (portRef : String) : List Device :=
  proj.deviceIndex.filter (fun d => d.owner == portRef)

/-- StcPort.get_children: lowercases the requested types; when emulated
devices are requested and the shared project index is empty it first
triggers the project-level enumeration, then takes the devices owned by this
port and merges in the remaining types through the base mechanism (modelled
by the baseChildren oracle); the base query is only issued when some other
type remains. -/
def StcPort.get_children (port : StcPort) (remoteDevices : List Device)
    (baseChildren : List String → List String) (proj : ProjectState)
    (types : List String) : ProjectState × List (Device ⊕ String) :=
  let tys := types.map pyLower
  if "emulateddevice" ∈ tys then
    let proj1 := if (project_get_objects_by_type proj).isEmpty
                 then project_get_children_ed remoteDevices proj else proj
    let devs := port_get_objects_by_type proj1 port.ref
    let tys2 := tys.filter (fun t => t != "emulateddevice")
    if tys2.isEmpty then (proj1, devs.map Sum.inl)
    else (proj1, devs.map Sum.inl ++ (baseChildren tys2).map Sum.inr)
  else
    if tys.isEmpty then (proj, [])
    else (proj, (baseChildren tys).map Sum.inr)

/-- The non-device part of a get_children result: the remaining requested
types resolved through the base mechanism, empty when no other type was
requested. -/
def restChildren (baseChildren : List String → List String) (types : List String) :
    List (Device ⊕ String) :=
  let tys2 := (types.map pyLower).filter (fun t => t != "emulateddevice")
  if tys2.isEmpty then [] else (baseChildren tys2).map Sum.inr

/-- Modelled from the spec: the attribute state of one remote object as seen
through the base proxy, with the remote values and the writes buffered by
set_attributes calls that did not apply. -/
structure ObjAttrState where
  remote : List (String × String)
  pending : List (String × String)
deriving DecidableEq, Repr

/-- One attribute write with last-write-wins semantics on an association
list. -/
def setAttrPair (m : List (String × String)) (kv : String × String) :
    List (String × String) :=
  if m.any (fun e => e.1 == kv.1) then m.map (fun e => if e.1 == kv.1 then kv else e)
  else m ++ [kv]

/-- Flushes a batch of buffered writes into the remote attribute map. -/
def applyWrites (m : List (String × String)) (ws : List (String × String)) :
    List (String × String) :=
  ws.foldl setAttrPair m

/-- Modelled from the spec: base get_attributes returns the attributes of
the remote object. -/
def obj_get_attributes (o : ObjAttrState) : List (String × String) :=
  o.remote

/-- Modelled from the spec: base set_attributes stages the given writes;
when the apply flag is set the buffered writes are flushed to the remote
object at once, otherwise they stay buffered. -/
def obj_set_attributes (o : ObjAttrState) (apply1 : Bool)
    (attrs : List (String × String)) : ObjAttrState :=
  if apply1 then { remote := applyWrites o.remote (o.pending ++ attrs), pending := [] }
  else { o with pending := o.pending ++ attrs }

/-- Local state of an StcGenerator proxy: its own attribute state and the
state of its nested GeneratorConfig child. -/
structure StcGenerator where
  own : ObjAttrState
  config : ObjAttrState
deriving DecidableEq, Repr

/-- StcGenerator.get_attributes: forwards to the GeneratorConfig child. -/
def StcGenerator.get_attributes (g : StcGenerator) : List (String × String) :=
  obj_get_attributes g.config

/-- StcGenerator.set_attributes: forwards to the GeneratorConfig child with
the same apply flag and attributes. -/
def StcGenerator.set_attributes (g : StcGenerator) (apply1 : Bool)
    (attrs : List (String × String)) : StcGenerator :=
  { g with config := obj_set_attributes g.config apply1 attrs }

/-- A port fixture with a bound activephy, used to instantiate theorems with
hypotheses at concrete inputs. -/
def portBoundW : StcPort :=
  { ref := "port1", location := some "10.0.0.1/1/1", activephy := some "phy1" }

/-- A port fixture fresh from the constructor: location and activephy both
unset. -/
def portFreshW : StcPort :=
  { ref := "port1", location := none, activephy := none }

/-- An environment fixture whose link comes up at the second poll and whose
locations are all non-local. -/
def envUpAt2W : Env :=
  { isLocalHost := fun _ => false
    remoteLocation := "10.0.0.9/9/9"
    activephyTargets := "phy1"
    linkStatus := fun i => if i = 1 then "UP" else "DOWN" }

/-- An environment fixture whose link never comes up and whose locations are
all non-local. -/
def envDownW : Env :=
  { isLocalHost := fun _ => false
    remoteLocation := "10.0.0.9/9/9"
    activephyTargets := "phy1"
    linkStatus := fun _ => "DOWN" }

/-- An environment fixture whose link is always up and whose locations are
all non-local. -/
def envUpW : Env :=
  { isLocalHost := fun _ => false
    remoteLocation := "10.0.0.9/9/9"
    activephyTargets := "phy1"
    linkStatus := fun _ => "UP" }

/-- An environment fixture whose locations are all local. -/
def envLocalW : Env :=
  { isLocalHost := fun _ => true
    remoteLocation := "10.0.0.9/9/9"
    activephyTargets := "phy1"
    linkStatus := fun _ => "DOWN" }

/-- A base-children oracle fixture returning nothing. -/
def baseNoneW : List String → List String := fun _ => []

/-- An unpopulated project fixture. -/
def projFreshW : ProjectState :=
  { deviceIndex := [], enumCount := 0 }

/-- A two-device remote fixture: one device owned by each of the two port
fixtures below. -/
def devicesW : List Device :=
  [{ ref := "dev1", owner := "portA" }, { ref := "dev2", owner := "portB" }]

/-- A second port fixture, owner of the second fixture device. -/
def portAW : StcPort :=
  { ref := "portA", location := none, activephy := none }

/-- A third port fixture, owner of the second fixture device. -/
def portBW : StcPort :=
  { ref := "portB", location := none, activephy := none }

/-- The outcome of the raise path of wait_for_states as a function of the
last assigned link_state value. -/
def missResult (states : List String) (timeout : Nat) : Option String → Except PyError Nat
  | none => Except.error (PyError.nameError "link_state")
  | some s => Except.error (PyError.tgnError states s timeout)

theorem waitLoop_eventually_ok (env : Env) (S : List String) (T : Nat) (r : String) :
    ∀ k fuel i lastState, k < fuel → env.linkStatus (i + k) ∈ S →
      (∀ j, j < k → env.linkStatus (i + j) ∉ S) →
      waitLoop (some r) env S T fuel i lastState = Except.ok (i + k + 1) := by
  intro k
  induction k with
  | zero =>
      intro fuel i lastState hk hin _
      match fuel, hk with
      | fuel + 1, _ =>
        simp only [waitLoop]
        rw [if_pos (by simpa using hin)]
  | succ k ih =>
      intro fuel i lastState hk hin hmiss
      match fuel, hk with
      | fuel + 1, hk =>
        simp only [waitLoop]
        rw [if_neg (by simpa using hmiss 0 (Nat.succ_pos k))]
        have h2 := ih fuel (i + 1) (some (env.linkStatus i)) (by omega)
          (by have : i + 1 + k = i + (k + 1) := by omega
              rw [this]; exact hin)
          (by intro j hj
              have : i + 1 + j = i + (j + 1) := by omega
              rw [this]; exact hmiss (j + 1) (by omega))
        rw [h2]
        have : i + 1 + k = i + (k + 1) := by omega
        rw [this]

theorem waitLoop_all_miss (env : Env) (S : List String) (T : Nat) (r : String) :
    ∀ fuel i lastState, (∀ j, j < fuel → env.linkStatus (i + j) ∉ S) →
      waitLoop (some r) env S T fuel i lastState =
        missResult S T (if fuel = 0 then lastState else some (env.linkStatus (i + fuel - 1))) := by
  intro fuel
  induction fuel with
  | zero =>
      intro i lastState _
      cases lastState <;> simp [waitLoop, missResult]
  | succ fuel ih =>
      intro i lastState hmiss
      simp only [waitLoop]
      rw [if_neg (by simpa using hmiss 0 (Nat.succ_pos fuel))]
      have h2 := ih (i + 1) (some (env.linkStatus i))
        (by intro j hj
            have : i + 1 + j = i + (j + 1) := by omega
            rw [this]; exact hmiss (j + 1) (by omega))
      rw [h2]
      rcases Nat.eq_zero_or_pos fuel with hf | hf
      · subst hf; simp
      · rw [if_neg (by omega), if_neg (by omega)]
        have : i + 1 + fuel - 1 = i + (fuel + 1) - 1 := by omega
        rw [this]

/-- C1: for every attempt budget T at least 1 and requested state set S,
wait_for_states on a port with a bound activephy polls LinkStatus for at
most T attempts; it returns successfully after exactly k + 1 polls when the
polled value first enters S at the (k + 1)-th attempt with k + 1 at most T,
and when no polled value is in S within the T attempts it raises the
TgnError carrying the requested states, the last observed state and T. -/
theorem wait_for_states_spec (port : StcPort) (env : Env) (T : Nat) (S : List String)
    (r : String) (hphy : port.activephy = some r) (hT : 1 ≤ T) :
    (∀ k, k < T → env.linkStatus k ∈ S → (∀ j, j < k → env.linkStatus j ∉ S) →
        StcPort.wait_for_states port env T S = Except.ok (k + 1)) ∧
    ((∀ j, j < T → env.linkStatus j ∉ S) →
        StcPort.wait_for_states port env T S =
          Except.error (PyError.tgnError S (env.linkStatus (T - 1)) T)) := by
  constructor
  · intro k hk hin hmiss
    have h := waitLoop_eventually_ok env S T r k T 0 none hk (by simpa using hin)
      (by intro j hj; simpa using hmiss j hj)
    rw [StcPort.wait_for_states, hphy, h]
    simp
  · intro hmiss
    have h := waitLoop_all_miss env S T r T 0 none (by intro j hj; simpa using hmiss j hj)
    rw [StcPort.wait_for_states, hphy, h, if_neg (by omega)]
    simp [missResult]

/-- Witness for wait_for_states_spec: with a link that comes up at the
second poll, a budget of 5 attempts and requested states UP, the call
returns after exactly 2 polls; with a link that never comes up it fails
with the TgnError carrying the states, the last observed DOWN and the
budget. -/
theorem wait_for_states_spec_witness :
    StcPort.wait_for_states portBoundW envUpAt2W 5 ["UP"] = Except.ok 2 ∧
    StcPort.wait_for_states portBoundW envDownW 3 ["UP"] =
      Except.error (PyError.tgnError ["UP"] "DOWN" 3) := by
  constructor
  · exact (wait_for_states_spec portBoundW envUpAt2W 5 ["UP"] "phy1" rfl (by decide)).1 1
      (by decide) (by decide)
      (by intro j hj
          have : j = 0 := by omega
          subst this; decide)
  · exact (wait_for_states_spec portBoundW envDownW 3 ["UP"] "phy1" rfl (by decide)).2
      (by intro j hj; show ("DOWN" : String) ∉ ["UP"]; decide)

/-- C10: with an attempt budget of zero, wait_for_states performs no poll
and fails with the unbound-variable error on link_state rather than the
documented TgnError; a TgnError result with timeout T is only producible
when T is at least 1. -/
theorem wait_for_states_zero_budget (port : StcPort) (env : Env) (S : List String) :
    StcPort.wait_for_states port env 0 S = Except.error (PyError.nameError "link_state") ∧
    (∀ T lastState, StcPort.wait_for_states port env T S =
        Except.error (PyError.tgnError S lastState T) → 1 ≤ T) := by
  constructor
  · rfl
  · intro T lastState h
    match T with
    | 0 => rw [StcPort.wait_for_states] at h; simp [waitLoop] at h
    | T + 1 => omega

/-- Witness for wait_for_states_zero_budget: at budget zero the call fails
with the unbound-variable error, and a concrete TgnError outcome at budget 1
discharges the producibility direction. -/
theorem wait_for_states_zero_budget_witness :
    StcPort.wait_for_states portBoundW envDownW 0 ["UP"] =
      Except.error (PyError.nameError "link_state") ∧ 1 ≤ 1 := by
  constructor
  · exact (wait_for_states_zero_budget portBoundW envDownW ["UP"]).1
  · exact (wait_for_states_zero_budget portBoundW envDownW ["UP"]).2 1 "DOWN" (by decide)

/-- C9: on a port with a bound activephy, is_online returns the boolean that
the lowercased LinkStatus equals up, so it returns true exactly when the
observed LinkStatus equals UP up to case. -/
theorem is_online_spec (port : StcPort) (env : Env) (r : String)
    (hphy : port.activephy = some r) :
    StcPort.is_online port env = Except.ok (pyLower (env.linkStatus 0) == "up") ∧
    (StcPort.is_online port env = Except.ok true ↔ pyLower (env.linkStatus 0) = "up") := by
  constructor
  · rw [StcPort.is_online, hphy]
  · rw [StcPort.is_online, hphy]
    constructor
    · intro h
      have : (pyLower (env.linkStatus 0) == "up") = true := by
        simpa using h
      exact eq_of_beq this
    · intro h
      simp [h]

/-- Witness for is_online_spec: a port whose current LinkStatus reads UP is
online. -/
theorem is_online_spec_witness :
    StcPort.is_online portBoundW envUpW = Except.ok true := by
  exact (is_online_spec portBoundW envUpW "phy1" rfl).2.mpr (by decide)

/-- Counterexample to C4: on a freshly constructed port, whose activephy is
unset, is_online and wait_for_states with a positive budget do produce the
null-reference fault (the Python AttributeError on None), so they neither
raise a distinctly surfaced precondition error nor act as guarded no-ops. -/
theorem unbound_phy_null_fault_cex :
    StcPort.is_online portFreshW envDownW = Except.error PyError.noneAttributeError ∧
    StcPort.wait_for_states portFreshW envDownW 5 ["UP"] =
      Except.error PyError.noneAttributeError := by
  constructor <;> decide

/-- C4 amended: invoking is_online, or wait_for_states with a positive
attempt budget, on a port with no bound activephy fails by dereferencing the
unset activephy, surfacing the null-reference fault; no distinct
precondition error or guard exists in the code. -/
theorem unbound_phy_null_fault (port : StcPort) (env : Env) (S : List String)
    (T : Nat) (hphy : port.activephy = none) (hT : 1 ≤ T) :
    StcPort.is_online port env = Except.error PyError.noneAttributeError ∧
    StcPort.wait_for_states port env T S = Except.error PyError.noneAttributeError := by
  constructor
  · rw [StcPort.is_online, hphy]
  · rw [StcPort.wait_for_states, hphy]
    match T, hT with
    | T + 1, _ => rfl

/-- Witness for unbound_phy_null_fault at a concrete fresh port and
environment. -/
theorem unbound_phy_null_fault_witness :
    StcPort.is_online portFreshW envUpW = Except.error PyError.noneAttributeError ∧
    StcPort.wait_for_states portFreshW envUpW 3 ["UP"] =
      Except.error PyError.noneAttributeError :=
  unbound_phy_null_fault portFreshW envUpW ["UP"] 3 rfl (by decide)

/-- C2: on a reserve call whose resolved location is non-local, the given
location is written remotely and stored (or the remote Location is read and
adopted when no argument is given), the AttachPorts request is issued with
auto connect and the force flag as RevokeOwner, followed by the apply, the
activephy is bound to the activephy-Targets reference and eagerly loaded,
and the UP polling with the given timeout happens exactly when wait_for_up
is set; a failing wait propagates its error. -/
theorem reserve_nonlocal_spec (port : StcPort) (env : Env) (force : Bool) (T : Nat) :
    (∀ loc, loc ≠ "" → env.isLocalHost loc = false →
      (∀ k, StcPort.wait_for_states (boundPort port loc env.activephyTargets) env T ["UP"] =
          Except.ok k →
        StcPort.reserve port env (some loc) force true T =
          Except.ok (boundPort port loc env.activephyTargets,
            [RemoteAction.setAttributes [("location", loc)]] ++
              attachTrace port.ref force env.activephyTargets ++
              (List.range k).map RemoteAction.pollLinkStatus)) ∧
      (∀ e, StcPort.wait_for_states (boundPort port loc env.activephyTargets) env T ["UP"] =
          Except.error e →
        StcPort.reserve port env (some loc) force true T = Except.error e) ∧
      StcPort.reserve port env (some loc) force false T =
        Except.ok (boundPort port loc env.activephyTargets,
          [RemoteAction.setAttributes [("location", loc)]] ++
            attachTrace port.ref force env.activephyTargets)) ∧
    (env.isLocalHost env.remoteLocation = false →
      (∀ k, StcPort.wait_for_states (boundPort port env.remoteLocation env.activephyTargets)
          env T ["UP"] = Except.ok k →
        StcPort.reserve port env none force true T =
          Except.ok (boundPort port env.remoteLocation env.activephyTargets,
            [RemoteAction.getAttribute "Location"] ++
              attachTrace port.ref force env.activephyTargets ++
              (List.range k).map RemoteAction.pollLinkStatus)) ∧
      StcPort.reserve port env none force false T =
        Except.ok (boundPort port env.remoteLocation env.activephyTargets,
          [RemoteAction.getAttribute "Location"] ++
            attachTrace port.ref force env.activephyTargets)) := by
  constructor
  · intro loc hne hnl
    refine ⟨fun k hw => ?_, fun e hw => ?_, ?_⟩
    · simp only [boundPort] at hw ⊢
      simp [StcPort.reserve, reserveStep1, hne, hnl, hw]
    · simp only [boundPort] at hw ⊢
      simp [StcPort.reserve, reserveStep1, hne, hnl, hw]
    · simp [StcPort.reserve, reserveStep1, boundPort, hne, hnl]
  · intro hnl
    refine ⟨fun k hw => ?_, ?_⟩
    · simp only [boundPort] at hw ⊢
      simp [StcPort.reserve, reserveStep1, hnl, hw]
    · simp [StcPort.reserve, reserveStep1, boundPort, hnl]

/-- Witness for reserve_nonlocal_spec: reserving location 10.0.0.1/1/1
against a non-local environment whose link comes up at the second poll
attaches, applies, binds the activephy and completes after exactly 2
polls. -/
theorem reserve_nonlocal_spec_witness :
    StcPort.reserve portFreshW envUpAt2W (some "10.0.0.1/1/1") false true 5 =
      Except.ok (boundPort portFreshW "10.0.0.1/1/1" "phy1",
        [RemoteAction.setAttributes [("location", "10.0.0.1/1/1")]] ++
          attachTrace portFreshW.ref false "phy1" ++
          (List.range 2).map RemoteAction.pollLinkStatus) :=
  ((reserve_nonlocal_spec portFreshW envUpAt2W false 5).1 "10.0.0.1/1/1"
    (by decide) rfl).1 2 (by decide)

/-- C3: a reserve call whose resolved location is classified as local by the
host-locality predicate performs only the location write (or the Location
read when adopting), with no attach request, no apply and no poll, and the
activephy of the port stays unset. -/
theorem reserve_local_spec (port : StcPort) (env : Env) (force wfu : Bool) (T : Nat)
    (hphy : port.activephy = none) :
    (∀ loc, loc ≠ "" → env.isLocalHost loc = true →
      StcPort.reserve port env (some loc) force wfu T =
        Except.ok ({ port with location := some loc },
          [RemoteAction.setAttributes [("location", loc)]]) ∧
      ({ port with location := some loc } : StcPort).activephy = none ∧
      noReservationEffects [RemoteAction.setAttributes [("location", loc)]]) ∧
    (env.isLocalHost env.remoteLocation = true →
      StcPort.reserve port env none force wfu T =
        Except.ok ({ port with location := some env.remoteLocation },
          [RemoteAction.getAttribute "Location"]) ∧
      ({ port with location := some env.remoteLocation } : StcPort).activephy = none ∧
      noReservationEffects [RemoteAction.getAttribute "Location"]) := by
  constructor
  · intro loc hne hl
    refine ⟨?_, hphy, ?_⟩
    · simp [StcPort.reserve, reserveStep1, hne, hl]
    · simp [noReservationEffects]
  · intro hl
    refine ⟨?_, hphy, ?_⟩
    · simp [StcPort.reserve, reserveStep1, hl]
    · simp [noReservationEffects]

/-- Witness for reserve_local_spec: reserving a local location on a fresh
port only writes the location and leaves the activephy unset. -/
theorem reserve_local_spec_witness :
    StcPort.reserve portFreshW envLocalW (some "loc1") false true 5 =
      Except.ok ({ portFreshW with location := some "loc1" },
        [RemoteAction.setAttributes [("location", "loc1")]]) ∧
    ({ portFreshW with location := some "loc1" } : StcPort).activephy = none :=
  ⟨(((reserve_local_spec portFreshW envLocalW false true 5 rfl).1 "loc1"
      (by decide) rfl)).1,
   (((reserve_local_spec portFreshW envLocalW false true 5 rfl).1 "loc1"
      (by decide) rfl)).2.1⟩

/-- Counterexample to C7: the strip of get_name is not idempotent on every
already-stripped name.  On the remote name Port1 (offline) (offline) one
application removes only the last suffix occurrence, and a second
application strips again, so applying the strip to the already-stripped
result changes it. -/
theorem get_name_not_idempotent_cex :
    StcPort.get_name "Port1 (offline) (offline)" = "Port1 (offline)" ∧
    StcPort.get_name (StcPort.get_name "Port1 (offline) (offline)") ≠
      StcPort.get_name "Port1 (offline) (offline)" := by
  constructor <;> decide

/-- C7 amended: get_name removes exactly one trailing occurrence of the
offline suffix when present and returns the name unchanged otherwise; the
strip leaves unchanged, and hence is idempotent on, every name that does not
end in the suffix, but a name ending in a doubled suffix is stripped again
by a second application. -/
theorem get_name_strip_spec (p : List Char) :
    StcPort.get_name (String.mk (p ++ offlineSuffix)) = String.mk p ∧
    (offlineSuffix.isSuffixOf p = false →
      StcPort.get_name (String.mk p) = String.mk p ∧
      StcPort.get_name (StcPort.get_name (String.mk p)) =
        StcPort.get_name (String.mk p)) := by
  constructor
  · rw [StcPort.get_name]
    have hsuf : offlineSuffix.isSuffixOf (p ++ offlineSuffix) = true := by
      simp [List.isSuffixOf]
    rw [show (String.mk (p ++ offlineSuffix)).data = p ++ offlineSuffix from rfl,
      stripOfflineTag, if_pos hsuf]
    rw [List.length_append, Nat.add_sub_cancel, List.take_left]
  · intro h
    have hid : stripOfflineTag p = p := by
      rw [stripOfflineTag, if_neg (by simp [h])]
    refine ⟨?_, ?_⟩ <;> simp only [StcPort.get_name] <;> simp [hid]

/-- Witness for get_name_strip_spec: the suffixed name Port1 (offline)
strips to Port1, and Port1 itself is left unchanged. -/
theorem get_name_strip_spec_witness :
    StcPort.get_name (String.mk ("Port1".data ++ offlineSuffix)) =
      String.mk "Port1".data ∧
    StcPort.get_name (String.mk "Port1".data) = String.mk "Port1".data :=
  ⟨(get_name_strip_spec "Port1".data).1,
   ((get_name_strip_spec "Port1".data).2 (by decide)).1⟩

theorem addPortsLoop_members (lag : StcLag) (ports : List String) :
    (addPortsLoop lag ports).1.portSetMembers = lag.portSetMembers ++ ports := by
  induction ports generalizing lag with
  | nil => simp [addPortsLoop]
  | cons p rest ih => simp [addPortsLoop, ih]

theorem addPortsLoop_appends (lag : StcLag) (ports : List String) :
    (addPortsLoop lag ports).2.filterMap memberAppended = ports := by
  induction ports generalizing lag with
  | nil => simp [addPortsLoop]
  | cons p rest ih => simp [addPortsLoop, memberAppended, ih]

theorem addPortsLoop_configCount (lag : StcLag) (ports : List String) (q : String) :
    (addPortsLoop lag ports).2.count (LagAction.createLacpPortConfig q) = ports.count q := by
  induction ports generalizing lag with
  | nil => simp [addPortsLoop]
  | cons p rest ih =>
      simp only [addPortsLoop, List.count_cons, ih]
      by_cases hq : q = p <;> simp [hq, List.count_cons]
  
theorem addPortsLoop_noApply (lag : StcLag) (ports : List String) :
    (addPortsLoop lag ports).2.count LagAction.applyCall = 0 := by
  induction ports generalizing lag with
  | nil => simp [addPortsLoop]
  | cons p rest ih => simp [addPortsLoop, List.count_cons, ih]

/-- C5: add_ports appends each given port reference, in insertion order, to
the accumulated member-list attribute (never overwriting the existing
entries), creates exactly one LacpPortConfig child per occurrence of each
given port, and applies exactly once, after the whole batch; a later call
keeps appending, so adding p1 and p2 and then p3 yields the member list
p1, p2, p3. -/
theorem add_ports_spec (lag : StcLag) (ports : List String) :
    (StcLag.add_ports lag ports).1.portSetMembers = lag.portSetMembers ++ ports ∧
    (StcLag.add_ports lag ports).2.filterMap memberAppended = ports ∧
    (∀ q, (StcLag.add_ports lag ports).2.count (LagAction.createLacpPortConfig q) =
      ports.count q) ∧
    (StcLag.add_ports lag ports).2.count LagAction.applyCall = 1 ∧
    (StcLag.add_ports lag ports).2.getLast? = some LagAction.applyCall ∧
    (∀ more, (StcLag.add_ports (StcLag.add_ports lag ports).1 more).1.portSetMembers =
      lag.portSetMembers ++ ports ++ more) := by
  refine ⟨?_, ?_, ?_, ?_, ?_, ?_⟩
  · rw [StcLag.add_ports]; exact addPortsLoop_members lag ports
  · rw [StcLag.add_ports]
    simp [List.filterMap_append, addPortsLoop_appends, memberAppended]
  · intro q
    rw [StcLag.add_ports]
    simp [List.count_append, addPortsLoop_configCount]
  · rw [StcLag.add_ports]
    simp [List.count_append, addPortsLoop_noApply]
  · rw [StcLag.add_ports]
    exact List.getLast?_concat _
  · intro more
    rw [StcLag.add_ports, StcLag.add_ports]
    rw [addPortsLoop_members, addPortsLoop_members]

/-- Counterexample to C6: when the project owns no emulated devices the
emptiness check on the shared index cannot distinguish an unpopulated index
from a populated empty one, so requesting emulated devices on two ports
triggers the project-level enumeration twice, not at most once. -/
theorem get_children_enum_twice_cex :
    ¬ ((StcPort.get_children portBW [] baseNoneW
          (StcPort.get_children portAW [] baseNoneW projFreshW ["emulateddevice"]).1
          ["emulateddevice"]).1.enumCount ≤ projFreshW.enumCount + 1) := by
  decide

theorem get_children_unpopulated (port : StcPort) (remoteDevices : List Device)
    (baseChildren : List String → List String) (proj : ProjectState) (ts : List String)
    (hempty : proj.deviceIndex = []) (hts : "emulateddevice" ∈ ts.map pyLower) :
    StcPort.get_children port remoteDevices baseChildren proj ts =
      ({ deviceIndex := remoteDevices, enumCount := proj.enumCount + 1 },
        (remoteDevices.filter (fun d => d.owner == port.ref)).map Sum.inl ++
          restChildren baseChildren ts) := by
  have hcond : (project_get_objects_by_type proj).isEmpty = true := by
    simp [project_get_objects_by_type, hempty]
  simp only [StcPort.get_children]
  rw [if_pos hts, if_pos hcond, restChildren]
  simp only [project_get_children_ed, port_get_objects_by_type]
  split <;> simp

theorem get_children_populated (port : StcPort) (remoteDevices : List Device)
    (baseChildren : List String → List String) (proj : ProjectState) (ts : List String)
    (hfull : proj.deviceIndex ≠ []) (hts : "emulateddevice" ∈ ts.map pyLower) :
    StcPort.get_children port remoteDevices baseChildren proj ts =
      (proj, (proj.deviceIndex.filter (fun d => d.owner == port.ref)).map Sum.inl ++
        restChildren baseChildren ts) := by
  have hcond : ¬ ((project_get_objects_by_type proj).isEmpty = true) := by
    simp [project_get_objects_by_type, hfull]
  simp only [StcPort.get_children]
  rw [if_pos hts, if_neg hcond, restChildren]
  simp only [port_get_objects_by_type]
  split <;> simp

/-- C6 amended: provided the project owns at least one emulated device,
requesting children including the emulated-device type on two ports under
the same project triggers the project-level enumeration exactly once (the
shared index is populated by the first request and reused by the second),
and each request returns the devices owned by that port, merged with the
remaining requested types resolved through the base mechanism; with zero
devices each request re-triggers the enumeration. -/
theorem get_children_shared_index (remoteDevices : List Device)
    (baseChildren : List String → List String) (proj : ProjectState)
    (p1 p2 : StcPort) (ts : List String)
    (hunpop : proj.deviceIndex = []) (hne : remoteDevices ≠ [])
    (hts : "emulateddevice" ∈ ts.map pyLower) :
    (StcPort.get_children p1 remoteDevices baseChildren proj ts).1.enumCount =
      proj.enumCount + 1 ∧
    (StcPort.get_children p2 remoteDevices baseChildren
        (StcPort.get_children p1 remoteDevices baseChildren proj ts).1 ts).1.enumCount =
      proj.enumCount + 1 ∧
    (StcPort.get_children p1 remoteDevices baseChildren proj ts).2 =
      (remoteDevices.filter (fun d => d.owner == p1.ref)).map Sum.inl ++
        restChildren baseChildren ts ∧
    (StcPort.get_children p2 remoteDevices baseChildren
        (StcPort.get_children p1 remoteDevices baseChildren proj ts).1 ts).2 =
      (remoteDevices.filter (fun d => d.owner == p2.ref)).map Sum.inl ++
        restChildren baseChildren ts := by
  have h1 := get_children_unpopulated p1 remoteDevices baseChildren proj ts hunpop hts
  have h2 := get_children_populated p2 remoteDevices baseChildren
    { deviceIndex := remoteDevices, enumCount := proj.enumCount + 1 } ts hne hts
  rw [h1]
  dsimp only
  rw [h2]
  exact ⟨rfl, rfl, rfl, rfl⟩

/-- Witness for get_children_shared_index: two ports each owning one of the
two project devices issue one shared enumeration and each sees exactly its
own device. -/
theorem get_children_shared_index_witness :
    (StcPort.get_children portBW devicesW baseNoneW
        (StcPort.get_children portAW devicesW baseNoneW projFreshW ["EmulatedDevice"]).1
        ["EmulatedDevice"]).1.enumCount = projFreshW.enumCount + 1 ∧
    (StcPort.get_children portAW devicesW baseNoneW projFreshW ["EmulatedDevice"]).2 =
      (devicesW.filter (fun d => d.owner == portAW.ref)).map Sum.inl ++
        restChildren baseNoneW ["EmulatedDevice"] :=
  ⟨(get_children_shared_index devicesW baseNoneW projFreshW portAW portBW
      ["EmulatedDevice"] rfl (by decide) (by decide)).2.1,
   (get_children_shared_index devicesW baseNoneW projFreshW portAW portBW
      ["EmulatedDevice"] rfl (by decide) (by decide)).2.2.1⟩

/-- C8: the generator forwards attribute access entirely to its nested
GeneratorConfig child: get_attributes returns exactly the attributes of the
child, set_attributes performs exactly the base set_attributes of the child
with the same apply flag and attributes, the own attribute state of the
generator is untouched by any set, and a get after a set reflects exactly
the update of the child. -/
theorem generator_forwarding_spec (g : StcGenerator) (apply1 : Bool)
    (attrs : List (String × String)) :
    StcGenerator.get_attributes g = obj_get_attributes g.config ∧
    (StcGenerator.set_attributes g apply1 attrs).config =
      obj_set_attributes g.config apply1 attrs ∧
    (StcGenerator.set_attributes g apply1 attrs).own = g.own ∧
    StcGenerator.get_attributes (StcGenerator.set_attributes g apply1 attrs) =
      obj_get_attributes (obj_set_attributes g.config apply1 attrs) :=
  ⟨rfl, rfl, rfl, rfl⟩
